import Mathlib

/-!
Verification development for the Twitter search query builder
(`twitter-search-modern`).

The core under study is the pure query-assembly logic in
`src/components/TwitterSearchForm.tsx`:

* `parseSmartSearch` — the smart-search OR-grouping parser;
* the `queryFn` body of `useGenerateQuery` — the query builder mapping a
  `SearchCriteria` record to the final query string (modelled here as
  `generateQuery`);
* `initialCriteria` — the default criteria record;

together with `generateTwitterUrl` from `src/lib/utils.ts`.

JavaScript string primitives used by the source (`String.prototype.trim`,
`String.prototype.split` with a one-character separator,
`Array.prototype.join`) are modelled by structurally recursive Lean
functions (`jsTrim`, `splitOnChar`, `String.intercalate`) so that every
definition evaluates by kernel reduction.
-/

/-- Model of JavaScript `s.split(sep)` for a one-character separator `sep`:
scan the character list, cutting at every occurrence of `sep`.  Like the
JavaScript original, it returns `[""]` on the empty string and keeps empty
pieces produced by adjacent separators. -/
def splitOnCharAux (sep : Char) : List Char → List Char → List String
  | [], acc => [⟨acc.reverse⟩]
  | c :: cs, acc =>
      if c = sep then ⟨acc.reverse⟩ :: splitOnCharAux sep cs []
      else splitOnCharAux sep cs (c :: acc)

/-- JavaScript `s.split(sep)` for a one-character separator. -/
def splitOnChar (sep : Char) (s : String) : List String :=
  splitOnCharAux sep s.data []

/-- Model of JavaScript `s.trim()`: remove leading and trailing whitespace. -/
def jsTrim (s : String) : String :=
  ⟨(((s.data.dropWhile Char.isWhitespace).reverse).dropWhile
      Char.isWhitespace).reverse⟩

/-- The `SearchCriteria` record of `TwitterSearchForm.tsx` (all search
parameter fields, strings and booleans). -/
structure SearchCriteria where
  fromUser : String
  toUser : String
  mentionsUser : String
  sinceDate : String
  untilDate : String
  minRetweets : String
  minLikes : String
  minReplies : String
  smartSearch : String
  exactPhrase : String
  anyWords : String
  excludeWords : String
  hashtag : String
  language : String
  nativeRetweets : Bool
  hasImages : Bool
  hasVideos : Bool
  hasLinks : Bool
  verified : Bool
  isRetweet : Bool
deriving DecidableEq

/-- The `initialCriteria` constant of `TwitterSearchForm.tsx`.  In the source
`sinceDate` and `untilDate` are initialised to
`new Date().toISOString().split('T')[0]` — today's date — which is
environmental, so it is taken here as the parameter `today`.  Every other
field defaults to the empty string or `false`. -/
def initialCriteria (today : String) : SearchCriteria :=
  { fromUser := ""
    toUser := ""
    mentionsUser := ""
    sinceDate := today
    untilDate := today
    minRetweets := ""
    minLikes := ""
    minReplies := ""
    smartSearch := ""
    exactPhrase := ""
    anyWords := ""
    excludeWords := ""
    hashtag := ""
    language := ""
    nativeRetweets := false
    hasImages := false
    hasVideos := false
    hasLinks := false
    verified := false
    isRetweet := false }

/-- The criteria record with every field empty or `false` — in particular
with empty dates, unlike `initialCriteria`, whose dates hold today. -/
def emptyCriteria : SearchCriteria := initialCriteria ""

/-- The `parseSmartSearch` function of `TwitterSearchForm.tsx`:
trim; if empty return `[]`; split on `,`, trim each item, drop empty items
(JavaScript `filter(Boolean)`); return `[]`, the single item, or the items
joined by ` OR ` inside one pair of parentheses. -/
def parseSmartSearch (smartSearch : String) : List String :=
  if jsTrim smartSearch = "" then []
  else
    let items := ((splitOnChar ',' smartSearch).map jsTrim).filter
      (fun item => item ≠ "")
    if items.length = 0 then []
    else if items.length = 1 then [items.headD ""]
    else ["(" ++ String.intercalate " OR " items ++ ")"]

/-- Model of one conditional `if (cond) parts.push(fragment)` statement of
the builder (`fragment` a list, to cover the spread-push of the smart-search
fragments). -/
def pushIf (cond : Prop) [Decidable cond] (fragment parts : List String) :
    List String :=
  if cond then parts ++ fragment else parts

/-- The `queryFn` body of `useGenerateQuery` in `TwitterSearchForm.tsx`:
the sequence of conditional pushes, in source order, then
`parts.join(' ')`.  Conditions on string fields are JavaScript truthiness,
i.e. the field is non-empty. -/
def generateQuery (criteria : SearchCriteria) : String :=
  let parts : List String := []
  let parts := pushIf (criteria.smartSearch ≠ "")
    (parseSmartSearch criteria.smartSearch) parts
  let parts := pushIf (criteria.fromUser ≠ "") ["from:" ++ criteria.fromUser] parts
  let parts := pushIf (criteria.toUser ≠ "") ["to:" ++ criteria.toUser] parts
  let parts := pushIf (criteria.mentionsUser ≠ "") ["@" ++ criteria.mentionsUser] parts
  let parts := pushIf (criteria.exactPhrase ≠ "")
    ["\"" ++ criteria.exactPhrase ++ "\""] parts
  let parts := pushIf (criteria.anyWords ≠ "")
    ["(" ++ String.intercalate " OR " (splitOnChar ' ' criteria.anyWords) ++ ")"] parts
  let parts := pushIf (criteria.excludeWords ≠ "")
    ["-" ++ String.intercalate " -" (splitOnChar ' ' criteria.excludeWords)] parts
  let parts := pushIf (criteria.hashtag ≠ "") ["#" ++ criteria.hashtag] parts
  let parts := pushIf (criteria.sinceDate ≠ "") ["since:" ++ criteria.sinceDate] parts
  let parts := pushIf (criteria.untilDate ≠ "") ["until:" ++ criteria.untilDate] parts
  let parts := pushIf (criteria.minRetweets ≠ "")
    ["min_retweets:" ++ criteria.minRetweets] parts
  let parts := pushIf (criteria.minLikes ≠ "") ["min_faves:" ++ criteria.minLikes] parts
  let parts := pushIf (criteria.minReplies ≠ "")
    ["min_replies:" ++ criteria.minReplies] parts
  let parts := pushIf (criteria.language ≠ "") ["lang:" ++ criteria.language] parts
  let parts := pushIf criteria.nativeRetweets ["filter:nativeretweets"] parts
  let parts := pushIf criteria.hasImages ["filter:images"] parts
  let parts := pushIf criteria.hasVideos ["filter:videos"] parts
  let parts := pushIf criteria.hasLinks ["filter:links"] parts
  let parts := pushIf criteria.verified ["filter:verified"] parts
  let parts := pushIf criteria.isRetweet ["filter:retweets"] parts
  String.intercalate " " parts

/-- The fragment list of §4.2 of the specification, in its fixed emission
order: smart-search fragments first, then one optional fragment per field,
ending with the six `filter:` flags. -/
def queryFragments (c : SearchCriteria) : List String :=
  parseSmartSearch c.smartSearch
    ++ (if c.fromUser ≠ "" then ["from:" ++ c.fromUser] else [])
    ++ (if c.toUser ≠ "" then ["to:" ++ c.toUser] else [])
    ++ (if c.mentionsUser ≠ "" then ["@" ++ c.mentionsUser] else [])
    ++ (if c.exactPhrase ≠ "" then ["\"" ++ c.exactPhrase ++ "\""] else [])
    ++ (if c.anyWords ≠ ""
        then ["(" ++ String.intercalate " OR " (splitOnChar ' ' c.anyWords) ++ ")"]
        else [])
    ++ (if c.excludeWords ≠ ""
        then ["-" ++ String.intercalate " -" (splitOnChar ' ' c.excludeWords)]
        else [])
    ++ (if c.hashtag ≠ "" then ["#" ++ c.hashtag] else [])
    ++ (if c.sinceDate ≠ "" then ["since:" ++ c.sinceDate] else [])
    ++ (if c.untilDate ≠ "" then ["until:" ++ c.untilDate] else [])
    ++ (if c.minRetweets ≠ "" then ["min_retweets:" ++ c.minRetweets] else [])
    ++ (if c.minLikes ≠ "" then ["min_faves:" ++ c.minLikes] else [])
    ++ (if c.minReplies ≠ "" then ["min_replies:" ++ c.minReplies] else [])
    ++ (if c.language ≠ "" then ["lang:" ++ c.language] else [])
    ++ (if c.nativeRetweets then ["filter:nativeretweets"] else [])
    ++ (if c.hasImages then ["filter:images"] else [])
    ++ (if c.hasVideos then ["filter:videos"] else [])
    ++ (if c.hasLinks then ["filter:links"] else [])
    ++ (if c.verified then ["filter:verified"] else [])
    ++ (if c.isRetweet then ["filter:retweets"] else [])

/-- The smart-search contract as worded in §4.1 of the specification,
stated as its own definition so that the code's `parseSmartSearch` can be
proved to refine it. -/
def parseSmartSearchSpec (s : String) : List String :=
  if jsTrim s = "" then []
  else
    match ((splitOnChar ',' s).map jsTrim).filter (fun item => item ≠ "") with
    | [] => []
    | [x] => [x]
    | xs => ["(" ++ String.intercalate " OR " xs ++ ")"]

/-- Uppercase hexadecimal digit for a value below 16. -/
def hexDigit (n : Nat) : Char :=
  if n < 10 then Char.ofNat (48 + n) else Char.ofNat (55 + n)

/-- Percent-encoding of one byte, as the three characters percent,
high hex digit, low hex digit. -/
def percentEncodeByte (b : Nat) : String :=
  ⟨['%', hexDigit (b / 16), hexDigit (b % 16)]⟩

/-- UTF-8 byte sequence of one character. -/
def utf8Bytes (c : Char) : List Nat :=
  let n := c.toNat
  if n < 128 then [n]
  else if n < 2048 then [192 + n / 64, 128 + n % 64]
  else if n < 65536 then [224 + n / 4096, 128 + n / 64 % 64, 128 + n % 64]
  else [240 + n / 262144, 128 + n / 4096 % 64, 128 + n / 64 % 64, 128 + n % 64]

/-- The characters JavaScript `encodeURIComponent` leaves unencoded:
ASCII letters, digits, hyphen, underscore, dot, exclamation mark, tilde,
asterisk, apostrophe (code 39), and parentheses. -/
def isUriUnreserved (c : Char) : Bool :=
  (65 ≤ c.toNat && c.toNat ≤ 90) || (97 ≤ c.toNat && c.toNat ≤ 122) ||
  (48 ≤ c.toNat && c.toNat ≤ 57) ||
  c == '-' || c == '_' || c == '.' || c == '!' || c == '~' || c == '*' ||
  c.toNat == 39 || c == '(' || c == ')'

/-- Model of JavaScript `encodeURIComponent`: every character outside the
unreserved set is replaced by the uppercase percent-encoding of its UTF-8
bytes. -/
def encodeURIComponent (s : String) : String :=
  String.join (s.data.map fun c =>
    if isUriUnreserved c then String.singleton c
    else String.join ((utf8Bytes c).map percentEncodeByte))

/-- The `generateTwitterUrl` function of `src/lib/utils.ts`: percent-encode
the query and embed it in the fixed search-URL template. -/
def generateTwitterUrl (query : String) : String :=
  "https://twitter.com/search?q=" ++ encodeURIComponent query ++
    "&src=typed_query&f=live"

theorem pushIf_eq (cond : Prop) [Decidable cond] (fragment parts : List String) :
    pushIf cond fragment parts = parts ++ (if cond then fragment else []) := by
  unfold pushIf
  split <;> simp

theorem parseSmartSearch_empty : parseSmartSearch "" = [] := by decide

theorem parseSmartSearch_gate (s : String) :
    (if s ≠ "" then parseSmartSearch s else []) = parseSmartSearch s := by
  split
  · rfl
  · rename_i h
    rw [not_ne_iff.mp h]
    exact parseSmartSearch_empty.symm

theorem generateQuery_eq_fragments (c : SearchCriteria) :
    generateQuery c = String.intercalate " " (queryFragments c) := by
  unfold generateQuery queryFragments
  simp only [pushIf_eq, parseSmartSearch_gate, List.nil_append, List.append_assoc]

theorem intercalate_singleton (sep s : String) :
    String.intercalate sep [s] = s := rfl

theorem intercalate_go_append (sep a b : String) (l : List String) :
    String.intercalate.go (a ++ b) sep l = a ++ String.intercalate.go b sep l := by
  induction l generalizing b with
  | nil => rfl
  | cons x xs ih =>
      show String.intercalate.go (a ++ b ++ sep ++ x) sep xs = _
      rw [String.append_assoc a b sep, String.append_assoc a (b ++ sep) x, ih]
      rfl

theorem intercalate_cons₂ (sep a b : String) (l : List String) :
    String.intercalate sep (a :: b :: l) =
      a ++ sep ++ String.intercalate sep (b :: l) := by
  show String.intercalate.go (a ++ sep ++ b) sep l = _
  rw [intercalate_go_append sep (a ++ sep) b l]
  rfl

theorem dash_intercalate (w : String) (ws : List String) :
    "-" ++ String.intercalate " -" (w :: ws) =
      String.intercalate " " ((w :: ws).map (fun x => "-" ++ x)) := by
  induction ws generalizing w with
  | nil => rfl
  | cons y ys ih =>
      rw [intercalate_cons₂ " -" w y ys, List.map_cons, List.map_cons,
        intercalate_cons₂, ← List.map_cons, ← ih y]
      have hsp : (" -" : String) = " " ++ "-" := by decide
      rw [hsp]
      simp only [String.append_assoc]

example : parseSmartSearch "" = [] := by decide
example : parseSmartSearch "cat" = ["cat"] := by decide
example : parseSmartSearch "cat, dog, puppy" = ["(cat OR dog OR puppy)"] := by decide
example : parseSmartSearch " cat ,  , dog" = ["(cat OR dog)"] := by decide
example : generateQuery emptyCriteria = "" := by decide
example :
    generateQuery { emptyCriteria with
      fromUser := "alice", hashtag := "AI", hasImages := true } =
      "from:alice #AI filter:images" := by decide
example :
    generateQuery (initialCriteria "2026-10-11") =
      "since:2026-10-11 until:2026-10-11" := by decide
example : generateQuery { emptyCriteria with anyWords := "react vue" } =
    "(react OR vue)" := by decide
example : generateQuery { emptyCriteria with excludeWords := "spam ads" } =
    "-spam -ads" := by decide

/-- C1: for every criteria record, the built query equals the §4.2 fragment
list — smart-search fragments first, then the per-field fragments in the
fixed order, ending with the six filter flags — joined by one literal
space; in particular fromUser alice, hashtag AI, hasImages true and all
else empty/false yields exactly the string from:alice #AI filter:images. -/
theorem claim1_fragment_order :
    (∀ c : SearchCriteria,
      generateQuery c = String.intercalate " " (queryFragments c)) ∧
    generateQuery { emptyCriteria with
      fromUser := "alice", hashtag := "AI", hasImages := true } =
      "from:alice #AI filter:images" :=
  ⟨generateQuery_eq_fragments, by decide⟩

/-- C2: parseSmartSearch satisfies the §4.1 contract (trim; empty gives no
fragment; split on comma, trim items, drop empties; zero items give no
fragment, one item is returned verbatim, two or more are OR-joined inside
one pair of parentheses), together with the four worked examples of the
specification. -/
theorem claim2_parseSmartSearch_contract :
    (∀ s : String, parseSmartSearch s = parseSmartSearchSpec s) ∧
    parseSmartSearch "" = [] ∧
    parseSmartSearch "cat" = ["cat"] ∧
    parseSmartSearch "cat, dog, puppy" = ["(cat OR dog OR puppy)"] ∧
    parseSmartSearch " cat ,  , dog" = ["(cat OR dog)"] := by
  refine ⟨?_, by decide, by decide, by decide, by decide⟩
  intro s
  simp only [parseSmartSearch, parseSmartSearchSpec]
  split
  · rfl
  · rcases h : ((splitOnChar ',' s).map jsTrim).filter (fun item => item ≠ "")
      with _ | ⟨x, _ | ⟨y, zs⟩⟩ <;> simp [h]

/-- C3 counterexample: the claim says the all-default criteria build to the
empty string, but initialCriteria defaults sinceDate and untilDate to
today, a non-empty date, so on any concrete day (here 2026-10-11) the
builder emits the since and until fragments and the output is non-empty. -/
theorem claim3_counterexample :
    generateQuery (initialCriteria "2026-10-11") =
      "since:2026-10-11 until:2026-10-11" ∧
    generateQuery (initialCriteria "2026-10-11") ≠ "" := by
  constructor <;> decide

/-- C3 amended: the builder returns the empty string for the criteria
record whose fields are all empty or false — including empty dates —
while the actual initialCriteria value, whose dates hold today, builds to
the two fragments since:today and until:today. -/
theorem claim3_amended :
    generateQuery emptyCriteria = "" ∧
    ∀ today : String, today ≠ "" →
      generateQuery (initialCriteria today) =
        "since:" ++ today ++ " " ++ ("until:" ++ today) := by
  refine ⟨by decide, ?_⟩
  intro t ht
  rw [generateQuery_eq_fragments]
  simp [queryFragments, initialCriteria, ht, parseSmartSearch_empty,
    intercalate_cons₂, intercalate_singleton]

/-- C3 amended witness at the concrete day 2026-10-11. -/
theorem claim3_amended_witness :
    generateQuery (initialCriteria "2026-10-11") =
      "since:" ++ "2026-10-11" ++ " " ++ ("until:" ++ "2026-10-11") :=
  claim3_amended.2 "2026-10-11" (by decide)

/-- C4 counterexample: with only fromUser differing from its default, the
output is not the from fragment alone, because the default dates (today,
here 2026-10-11) contribute since and until fragments as well. -/
theorem claim4_counterexample :
    generateQuery { initialCriteria "2026-10-11" with fromUser := "alice" } =
      "from:alice since:2026-10-11 until:2026-10-11" ∧
    generateQuery { initialCriteria "2026-10-11" with fromUser := "alice" } ≠
      "from:alice" := by
  constructor <;> decide

/-- C4 amended: starting from the criteria record whose fields are all
empty or false (rather than from initialCriteria, whose dates hold today),
setting exactly one field to a non-default value makes the builder return
that field's §4.2 fragment alone: the smart-search fragment list for
smartSearch, the mapped fragment for the other string fields, and the
corresponding filter flag for each boolean. -/
theorem claim4_amended :
    (∀ v : String, v ≠ "" →
      generateQuery { emptyCriteria with smartSearch := v } =
        String.intercalate " " (parseSmartSearch v)) ∧
    (∀ v : String, v ≠ "" →
      generateQuery { emptyCriteria with fromUser := v } = "from:" ++ v) ∧
    (∀ v : String, v ≠ "" →
      generateQuery { emptyCriteria with toUser := v } = "to:" ++ v) ∧
    (∀ v : String, v ≠ "" →
      generateQuery { emptyCriteria with mentionsUser := v } = "@" ++ v) ∧
    (∀ v : String, v ≠ "" →
      generateQuery { emptyCriteria with exactPhrase := v } =
        "\"" ++ v ++ "\"") ∧
    (∀ v : String, v ≠ "" →
      generateQuery { emptyCriteria with anyWords := v } =
        "(" ++ String.intercalate " OR " (splitOnChar ' ' v) ++ ")") ∧
    (∀ v : String, v ≠ "" →
      generateQuery { emptyCriteria with excludeWords := v } =
        "-" ++ String.intercalate " -" (splitOnChar ' ' v)) ∧
    (∀ v : String, v ≠ "" →
      generateQuery { emptyCriteria with hashtag := v } = "#" ++ v) ∧
    (∀ v : String, v ≠ "" →
      generateQuery { emptyCriteria with sinceDate := v } = "since:" ++ v) ∧
    (∀ v : String, v ≠ "" →
      generateQuery { emptyCriteria with untilDate := v } = "until:" ++ v) ∧
    (∀ v : String, v ≠ "" →
      generateQuery { emptyCriteria with minRetweets := v } =
        "min_retweets:" ++ v) ∧
    (∀ v : String, v ≠ "" →
      generateQuery { emptyCriteria with minLikes := v } = "min_faves:" ++ v) ∧
    (∀ v : String, v ≠ "" →
      generateQuery { emptyCriteria with minReplies := v } =
        "min_replies:" ++ v) ∧
    (∀ v : String, v ≠ "" →
      generateQuery { emptyCriteria with language := v } = "lang:" ++ v) ∧
    generateQuery { emptyCriteria with nativeRetweets := true } =
      "filter:nativeretweets" ∧
    generateQuery { emptyCriteria with hasImages := true } = "filter:images" ∧
    generateQuery { emptyCriteria with hasVideos := true } = "filter:videos" ∧
    generateQuery { emptyCriteria with hasLinks := true } = "filter:links" ∧
    generateQuery { emptyCriteria with verified := true } = "filter:verified" ∧
    generateQuery { emptyCriteria with isRetweet := true } =
      "filter:retweets" := by
  refine ⟨?_, ?_, ?_, ?_, ?_, ?_, ?_, ?_, ?_, ?_, ?_, ?_, ?_, ?_,
    by decide, by decide, by decide, by decide, by decide, by decide⟩ <;>
  · intro v hv
    rw [generateQuery_eq_fragments]
    simp [queryFragments, emptyCriteria, initialCriteria, hv,
      parseSmartSearch_empty, intercalate_singleton]

/-- C4 amended witness: a single non-default fromUser alice. -/
theorem claim4_amended_witness :
    generateQuery { emptyCriteria with fromUser := "alice" } =
      "from:" ++ "alice" :=
  claim4_amended.2.1 "alice" (by decide)

/-- C5: whenever anyWords is non-empty the builder emits the fragment made
by splitting anyWords on single spaces, joining the pieces with the
literal OR separator, and wrapping the result in one pair of parentheses,
regardless of the number of pieces — a single word w still yields the
parenthesized (w); the record with anyWords react vue builds to exactly
(react OR vue). -/
theorem claim5_anyWords_fragment :
    (∀ c : SearchCriteria, c.anyWords ≠ "" →
      ("(" ++ String.intercalate " OR " (splitOnChar ' ' c.anyWords) ++ ")") ∈
        queryFragments c) ∧
    generateQuery { emptyCriteria with anyWords := "react vue" } =
      "(react OR vue)" ∧
    generateQuery { emptyCriteria with anyWords := "solo" } = "(solo)" := by
  refine ⟨?_, by decide, by decide⟩
  intro c hc
  simp [queryFragments, hc]

/-- C5 witness: the anyWords fragment for react vue is among the emitted
fragments. -/
theorem claim5_witness :
    ("(" ++ String.intercalate " OR " (splitOnChar ' ' "react vue") ++ ")") ∈
      queryFragments { emptyCriteria with anyWords := "react vue" } :=
  claim5_anyWords_fragment.1 { emptyCriteria with anyWords := "react vue" }
    (by decide)

/-- C6: whenever excludeWords is non-empty the builder emits one fragment
in which a dash prefixes the first space-separated piece and each
subsequent piece is preceded by space-dash; that joined form equals the
space-join of the dash-prefixed pieces, and the record with excludeWords
spam ads builds to exactly -spam -ads. -/
theorem claim6_excludeWords_fragment :
    (∀ c : SearchCriteria, c.excludeWords ≠ "" →
      ("-" ++ String.intercalate " -" (splitOnChar ' ' c.excludeWords)) ∈
        queryFragments c) ∧
    (∀ (w : String) (ws : List String),
      "-" ++ String.intercalate " -" (w :: ws) =
        String.intercalate " " ((w :: ws).map (fun x => "-" ++ x))) ∧
    generateQuery { emptyCriteria with excludeWords := "spam ads" } =
      "-spam -ads" := by
  refine ⟨?_, dash_intercalate, by decide⟩
  intro c hc
  simp [queryFragments, hc]

/-- C6 witness: the excludeWords fragment for spam ads is among the emitted
fragments. -/
theorem claim6_witness :
    ("-" ++ String.intercalate " -" (splitOnChar ' ' "spam ads")) ∈
      queryFragments { emptyCriteria with excludeWords := "spam ads" } :=
  claim6_excludeWords_fragment.1
    { emptyCriteria with excludeWords := "spam ads" } (by decide)

/-- C7: the builder is a total function on criteria records (it is a plain
Lean function, defined on every input, always returning a string) and it
performs no numeric parsing or validation: any non-empty minRetweets,
minLikes, or minReplies string — malformed or negative-looking included —
is emitted verbatim inside its fragment, and contradictory boolean
combinations are all accepted, as the concrete pathological record shows. -/
theorem claim7_total_verbatim :
    (∀ c : SearchCriteria, c.minRetweets ≠ "" →
      ("min_retweets:" ++ c.minRetweets) ∈ queryFragments c) ∧
    (∀ c : SearchCriteria, c.minLikes ≠ "" →
      ("min_faves:" ++ c.minLikes) ∈ queryFragments c) ∧
    (∀ c : SearchCriteria, c.minReplies ≠ "" →
      ("min_replies:" ++ c.minReplies) ∈ queryFragments c) ∧
    generateQuery { emptyCriteria with
      minRetweets := "-5", minLikes := "abc", minReplies := "0x1",
      nativeRetweets := true, hasImages := true, hasVideos := true,
      hasLinks := true, verified := true, isRetweet := true } =
      "min_retweets:-5 min_faves:abc min_replies:0x1 filter:nativeretweets filter:images filter:videos filter:links filter:verified filter:retweets" := by
  refine ⟨?_, ?_, ?_, by decide⟩ <;>
  · intro c hc
    simp [queryFragments, hc]

/-- C7 witness: a negative-looking minRetweets string is emitted verbatim. -/
theorem claim7_witness :
    ("min_retweets:" ++ "-5") ∈
      queryFragments { emptyCriteria with minRetweets := "-5" } :=
  claim7_total_verbatim.1 { emptyCriteria with minRetweets := "-5" }
    (by decide)

/-- C8: both the builder and parseSmartSearch are deterministic — they are
pure functions of their argument, so equal inputs give equal outputs. -/
theorem claim8_deterministic :
    (∀ c₁ c₂ : SearchCriteria, c₁ = c₂ →
      generateQuery c₁ = generateQuery c₂) ∧
    (∀ s₁ s₂ : String, s₁ = s₂ →
      parseSmartSearch s₁ = parseSmartSearch s₂) :=
  ⟨fun _ _ h => h ▸ rfl, fun _ _ h => h ▸ rfl⟩

/-- C8 witness: determinism instantiated at concrete inputs. -/
theorem claim8_witness :
    generateQuery (initialCriteria "2026-10-11") =
      generateQuery (initialCriteria "2026-10-11") ∧
    parseSmartSearch "cat, dog" = parseSmartSearch "cat, dog" :=
  ⟨claim8_deterministic.1 _ _ rfl, claim8_deterministic.2 _ _ rfl⟩

/-- C9: the URL constructor returns exactly the fixed template with the
percent-encoded query embedded, for every query string; on the concrete
query from:alice #AI the colon, space and hash are encoded as %3A, %20
and %23. -/
theorem claim9_generateTwitterUrl :
    (∀ q : String, generateTwitterUrl q =
      "https://twitter.com/search?q=" ++ encodeURIComponent q ++
        "&src=typed_query&f=live") ∧
    generateTwitterUrl "from:alice #AI" =
      "https://twitter.com/search?q=from%3Aalice%20%23AI&src=typed_query&f=live" :=
  ⟨fun _ => rfl, by decide⟩

/-- C10: parseSmartSearch returns at most one fragment for every input
string — each of its result branches is the empty list or a singleton. -/
theorem claim10_at_most_one_fragment (s : String) :
    (parseSmartSearch s).length ≤ 1 := by
  simp only [parseSmartSearch]
  split
  · simp
  · split
    · simp
    · split <;> simp
